import Mathlib

/-!
Verification of the model-maintenance workflow of the car-accidents MLOps
repository. The embedding below translates, statement by statement, the
Python of `src/workflow/model_maintenance.py` (an Airflow DAG module) and
the relevant endpoint handlers of `src/app/main.py`. Machine-level Python
behaviour that the translated code relies on (attribute lookup on
`requests.Response` objects and on `str`, the `float(...)` builtin,
comparison between objects of unrelated types, `NameError` for unbound
module names) is modelled explicitly, so that the translated functions
raise exactly where the source raises.
-/

namespace Workflow

/-- Python exceptions that the translated statements can raise. -/
inductive PyExc where
  | typeError
  | attributeError
  | nameError
  | indexError
  deriving DecidableEq, Repr

/-- Decoded view of a `requests.Response`: HTTP status, the bearer token of a
`/token` reply, the accuracy payload of an `/accuracy` reply, and the raw
body text. Endpoints that carry no token or accuracy leave those fields
unused. -/
structure Response where
  status_code : Nat
  token : String
  accuracy : ℚ
  text : String
  deriving DecidableEq, Repr

/-- Python runtime values occurring in the workflow module: `None`, floats
(modelled as rationals; every value compared here is an exact decimal),
strings, and `requests.Response` objects. -/
inductive PyVal where
  | pyNone
  | pyFloat (q : ℚ)
  | pyStr (s : String)
  | pyResp (r : Response)
  deriving DecidableEq, Repr

/-- The Python builtin `float(x)`: defined for numbers (and numeric strings,
which no call site of the workflow module applies it to). A
`requests.Response` defines no `__float__`, so `float(response)` raises
`TypeError`. -/
def pyFloat : PyVal → Except PyExc ℚ
  | PyVal.pyFloat q => Except.ok q
  | _ => Except.error PyExc.typeError

/-- The Python comparison `x >= y`: defined between two numbers; a
`requests.Response` defines no ordering against a float, so comparing a
response object with a threshold raises `TypeError`. -/
def pyGe : PyVal → PyVal → Except PyExc Bool
  | PyVal.pyFloat a, PyVal.pyFloat b => Except.ok (decide (b ≤ a))
  | _, _ => Except.error PyExc.typeError

/-- Python attribute lookup `x.status_code`: a `requests.Response` carries the
attribute; a `str` (for instance a URL string), a float or `None` does not,
so the lookup raises `AttributeError`. -/
def pyAttrStatusCode : PyVal → Except PyExc Nat
  | PyVal.pyResp r => Except.ok r.status_code
  | _ => Except.error PyExc.attributeError

/-- Python attribute lookup `x.values`: none of the runtime values occurring
in the workflow module (`requests.Response`, `str`, `float`, `None`) carries
a `values` attribute, so the lookup raises `AttributeError`. In particular
`requests.Response` exposes `status_code`, `text`, `json()` and so on, but no
`values`. -/
def pyAttrValues : PyVal → Except PyExc PyVal :=
  fun _ => Except.error PyExc.attributeError

/-- Side effects of one task-callable invocation: the endpoint routes POSTed
(in order, relative to `api_url`), the XCom pushes performed as
`(key, value)` pairs, and the number of `logging.info` and `logging.error`
calls executed. -/
structure Effects where
  posts : List String
  pushes : List (String × PyVal)
  infoLogs : Nat
  errorLogs : Nat
  deriving DecidableEq, Repr

/-- Terminal status of one Airflow task instance: a `PythonOperator` task
fails exactly when its callable raises, and succeeds when the callable
returns (whatever the returned value, `None` included). -/
inductive TaskStatus where
  | succeeded
  | failed
  deriving DecidableEq, Repr

/-- Status of the task instance given the outcome of its callable. -/
def taskStatus {α : Type} : Except PyExc α → TaskStatus
  | Except.ok _ => TaskStatus.succeeded
  | Except.error _ => TaskStatus.failed

/-- Route strings built from `api_url` in the module (lines 102, 126–127,
155, 182, 202–203, 232–233); the embedding keeps the path suffix. -/
def token_url : String := "/token"

def raw_url : String := "/raw"

def dataset_url : String := "/dataset"

def accuracy_url : String := "/accuracy"

def backup_url : String := "/backup"

def train_url : String := "/train"

def reverse_backup_url : String := "/reverse_backup"

/-- Embeds `get_jwt_token` (model_maintenance.py lines 99–119). POSTs the
token route; on status 200 pushes the token under XCom key `token` and
returns it; otherwise logs an error and returns `None` — it does not raise,
so the task instance succeeds either way. The oracle `post` maps a route to
the response the API returns for it. -/
def get_jwt_token (post : String → Response) : Effects × Except PyExc PyVal :=
  let response := post token_url
  if response.status_code = 200 then
    (⟨[token_url], [("token", PyVal.pyStr response.token)], 0, 0⟩,
      Except.ok (PyVal.pyStr response.token))
  else
    (⟨[token_url], [], 0, 1⟩, Except.ok PyVal.pyNone)

/-- Embeds `recharge_data` (lines 121–145). POSTs the raw-import route, then
the dataset route; each unexpected status is only logged with
`logging.error`, after which the function returns `None` normally, so the
task instance succeeds regardless of the statuses. -/
def recharge_data (post : String → Response) : Effects × Except PyExc PyVal :=
  let resp_raw := post raw_url
  let resp_dataset := post dataset_url
  (⟨[raw_url, dataset_url], [],
    (if resp_raw.status_code = 200 then 1 else 0)
      + (if resp_dataset.status_code = 200 then 1 else 0),
    (if resp_raw.status_code = 200 then 0 else 1)
      + (if resp_dataset.status_code = 200 then 0 else 1)⟩,
    Except.ok PyVal.pyNone)

/-- Embeds `Check_accuracy` (lines 150–175). POSTs the accuracy route; line
165 then evaluates `float(resp_accuracy)` — on the `requests.Response`
object itself, not on its decoded payload — as the value for the XCom push
of key `current_accuracy`, which raises `TypeError` before the push happens.
The translation of the rest of the function (the line 170 comparison
`resp_accuracy >= accuracy_threshold`, itself a `TypeError` between a
response object and a float, and the `nope` / `backup` branch returns) is
kept but is unreachable. The parameter `accuracy_threshold` stands for
`float(Variable.get("accuracy_threshold", default_var=85))` of line 168. -/
def Check_accuracy (post : String → Response) (accuracy_threshold : ℚ) :
    Effects × Except PyExc String :=
  let resp_accuracy := post accuracy_url
  match pyFloat (PyVal.pyResp resp_accuracy) with
  | Except.error e => (⟨[accuracy_url], [], 0, 0⟩, Except.error e)
  | Except.ok q =>
    match pyGe (PyVal.pyResp resp_accuracy) (PyVal.pyFloat accuracy_threshold) with
    | Except.error e =>
      (⟨[accuracy_url], [("current_accuracy", PyVal.pyFloat q)], 1, 0⟩, Except.error e)
    | Except.ok b =>
      if b then
        (⟨[accuracy_url], [("current_accuracy", PyVal.pyFloat q)], 2, 0⟩,
          Except.ok "nope")
      else
        (⟨[accuracy_url], [("current_accuracy", PyVal.pyFloat q)], 2, 0⟩,
          Except.ok "backup")

/-- Embeds the `backup` task callable (lines 177–194). POSTs the backup
route and logs the outcome; unexpected statuses are logged only, the
function always returns `None`. -/
def backup (post : String → Response) : Effects × Except PyExc PyVal :=
  let resp_backup := post backup_url
  (⟨[backup_url], [],
    (if resp_backup.status_code = 200 then 1 else 0),
    (if resp_backup.status_code = 200 then 0 else 1)⟩,
    Except.ok PyVal.pyNone)

/-- Embeds `retrain` (lines 196–224). POSTs the train route (line 210, with
its status logged), then the accuracy route (line 218); line 220 then tests
`accuracy_url.status_code` — reading `status_code` off the URL *string*
rather than off `resp_accuracy` — which raises `AttributeError`, so the XCom
push of line 221 never executes and the task instance always fails. The
then-branch (which would in addition evaluate `float(resp_accuracy)` on the
response object, a `TypeError`) is translated but unreachable. -/
def retrain (post : String → Response) : Effects × Except PyExc PyVal :=
  let resp_train := post train_url
  let resp_accuracy := post accuracy_url
  let trainInfo : Nat := if resp_train.status_code = 200 then 1 else 0
  let trainErr : Nat := if resp_train.status_code = 200 then 0 else 1
  match pyAttrStatusCode (PyVal.pyStr accuracy_url) with
  | Except.error e =>
    (⟨[train_url, accuracy_url], [], trainInfo, trainErr⟩, Except.error e)
  | Except.ok n =>
    if n = 200 then
      match pyFloat (PyVal.pyResp resp_accuracy) with
      | Except.error e =>
        (⟨[train_url, accuracy_url], [], trainInfo, trainErr⟩, Except.error e)
      | Except.ok q =>
        (⟨[train_url, accuracy_url], [("current_accuracy", PyVal.pyFloat q)],
          trainInfo + 1, trainErr⟩, Except.ok PyVal.pyNone)
    else
      (⟨[train_url, accuracy_url], [], trainInfo, trainErr + 1⟩,
        Except.ok PyVal.pyNone)

/-- Embeds `validate` (lines 226–269). POSTs the accuracy route (line 240)
and logs its status (lines 243–246); line 249 then evaluates
`resp_accuracy.values.get("accuracy")` — but `requests.Response` has no
`values` attribute, so the lookup raises `AttributeError` before the XCom
push, before the threshold comparison of line 254 and before either branch
label can be returned. Consequently the task instance always fails and, in
particular, no POST to the reverse-backup route is ever issued (lines
252–269 are unreachable; see `validate_fail_branch` for their content). -/
def validate (post : String → Response) (accuracy_threshold : ℚ) :
    Effects × Except PyExc String :=
  let resp_accuracy := post accuracy_url
  let okInfo : Nat := if resp_accuracy.status_code = 200 then 1 else 0
  let okErr : Nat := if resp_accuracy.status_code = 200 then 0 else 1
  match pyAttrValues (PyVal.pyResp resp_accuracy) with
  | Except.error e =>
    (⟨[accuracy_url], [], okInfo, okErr⟩, Except.error e)
  | Except.ok v =>
    match pyFloat v with
    | Except.error e => (⟨[accuracy_url], [], okInfo, okErr⟩, Except.error e)
    | Except.ok q =>
      if accuracy_threshold ≤ q then
        (⟨[accuracy_url], [("current_accuracy", PyVal.pyFloat q)], okInfo + 2, okErr⟩,
          Except.ok "email_success")
      else
        (⟨[accuracy_url], [("current_accuracy", PyVal.pyFloat q)], okInfo + 2, okErr⟩,
          Except.ok "email_failure")

/-- Translation of lines 258–269 of `validate` on their own — the branch the
source intends for a post-retrain accuracy under the threshold — as if
control reached it: line 260 POSTs `accuracy_url` again (not the
reverse-backup route), and line 264 tests `reverse_backup_url.status_code`,
reading `status_code` off the URL string, which raises `AttributeError`. So
even this branch, as written, never POSTs the reverse-backup route. -/
def validate_fail_branch (post : String → Response) : Effects × Except PyExc String :=
  let _resp_accuracy := post accuracy_url
  match pyAttrStatusCode (PyVal.pyStr reverse_backup_url) with
  | Except.error e => (⟨[accuracy_url], [], 1, 0⟩, Except.error e)
  | Except.ok n =>
    if n = 200 then (⟨[accuracy_url], [], 2, 0⟩, Except.ok "email_failure")
    else (⟨[accuracy_url], [], 1, 1⟩, Except.ok "email_failure")

/-- The `task_id` strings of the nine operators declared in the module
(lines 277–394): `t1` through `t7_2`. -/
def taskIds : List String :=
  ["get_jwt_token", "recharge_data", "Check_accuracy", "backup", "nope",
   "retrain", "validate", "email_success", "email_failure"]

/-- Names bound at module top level of model_maintenance.py before the
dependency statements of lines 401–402 execute, in binding order (imported
names are omitted from the list; none of them is spelled `t_1`, `t_2` or
`t_3` either). -/
def moduleBoundNames : List String :=
  ["admin_username", "admin_password", "api_url", "current_accuracy",
   "accuracy_threshold", "dag", "get_jwt_token", "recharge_data", "nope",
   "Check_accuracy", "backup", "retrain", "validate",
   "t1", "t2", "t3", "t4_1", "t4_2", "t5", "t6", "t7_1", "t7_2"]

/-- Names referenced, in evaluation order, by the dependency statement of
line 401: `t_1 >> t_2 >> t_3 >> [t4_1, t4_2]`. -/
def depStmt1Names : List String := ["t_1", "t_2", "t_3", "t4_1", "t4_2"]

/-- Names referenced, in evaluation order, by the dependency statement of
line 402: `t4_1 >> t5 >> t6 >> [t7_1, t7_2]`. -/
def depStmt2Names : List String := ["t4_1", "t5", "t6", "t7_1", "t7_2"]

/-- Python name resolution at module scope: an unbound name raises
`NameError`. -/
def lookupName (n : String) : Except PyExc String :=
  if n ∈ moduleBoundNames then Except.ok n else Except.error PyExc.nameError

/-- Evaluates a dependency statement: resolves each referenced name left to
right, raising `NameError` at the first unbound one. -/
def evalDepStmt : List String → Except PyExc Unit
  | [] => Except.ok ()
  | n :: rest =>
    match lookupName n with
    | Except.error e => Except.error e
    | Except.ok _ => evalDepStmt rest

/-- Evaluation of the workflow-dependency section (lines 397–402): line 401
first, then line 402; an exception in line 401 aborts the module import, so
line 402 never runs and no edge is wired. -/
def moduleWiring : Except PyExc Unit :=
  match evalDepStmt depStmt1Names with
  | Except.error e => Except.error e
  | Except.ok _ => evalDepStmt depStmt2Names

/-- The dependency edges (between `task_id` strings) that lines 401–402
declare, reading the misspelled `t_1`, `t_2`, `t_3` as the operators `t1`,
`t2`, `t3` they evidently denote — the statement as written raises
`NameError` (see `moduleWiring`), so these are the edges of the intended
graph, which the rest of the module documents. -/
def declaredEdges : List (String × String) :=
  [("get_jwt_token", "recharge_data"), ("recharge_data", "Check_accuracy"),
   ("Check_accuracy", "backup"), ("Check_accuracy", "nope"),
   ("backup", "retrain"), ("retrain", "validate"),
   ("validate", "email_success"), ("validate", "email_failure")]

/-- Downstream successors of a task in the declared graph. -/
def succs (n : String) : List String :=
  (declaredEdges.filter (fun e => e.1 = n)).map Prod.snd

/-- The two `BranchPythonOperator` tasks of the module (`t3` and `t6`):
their callable returns the `task_id` of the one downstream task to run;
every other direct downstream task is skipped. -/
def isBranch (n : String) : Bool :=
  n = "Check_accuracy" || n = "validate"

/-- Tasks lying on the executed path of a run of the declared graph, under
the branch semantics of the two `BranchPythonOperator` tasks: from a task,
every successor is followed, except at a branch task where only the
successor selected by `sel` is followed. `fuel` bounds the recursion depth
(the graph has nine nodes, so fuel 16 is ample). -/
def executedFrom (fuel : Nat) (sel : String → String) (n : String) : List String :=
  match fuel with
  | 0 => []
  | fuel + 1 =>
    n :: ((if isBranch n then (succs n).filter (fun m => m = sel n) else succs n).map
      (fun m => executedFrom fuel sel m)).flatten

/-- Tasks executed in a run starting at the entry task `get_jwt_token`. -/
def executed (sel : String → String) : List String :=
  executedFrom 16 sel "get_jwt_token"

/-- Number of notification (email) tasks on the executed path of a run. -/
def emailCount (sel : String → String) : Nat :=
  ((executed sel).filter
    (fun t => t = "email_success" || t = "email_failure")).length

/-- The XCom write statements contained in the module, as
`(task_id, key)` pairs: line 115 (`get_jwt_token` writes `token`), line 165
(`Check_accuracy` writes `current_accuracy`), line 221 (`retrain` writes
`current_accuracy`), line 249 (`validate` writes `current_accuracy`). -/
def xcomPushStmts : List (String × String) :=
  [("get_jwt_token", "token"), ("Check_accuracy", "current_accuracy"),
   ("retrain", "current_accuracy"), ("validate", "current_accuracy")]

/-- Tasks whose source contains a write statement for the given key. -/
def writersOf (key : String) : List String :=
  (xcomPushStmts.filter (fun s => s.2 = key)).map Prod.fst

/-- Retry configuration the DAG declares (lines 31–37): `retries: 3`. -/
def dagRetries : Nat := 3

/-- Retry configuration the DAG declares (line 35): `retry_delay` of five
minutes, a fixed inter-attempt delay. -/
def dagRetryDelayMinutes : Nat := 5

/-- Modelled from the spec: the Graph Executor retry loop of sections 4.2
and 4.3 is orchestration-framework code not present under `src/` — the
module only configures it (`retries`, `retry_delay` in `default_args`).
Following the words of the spec: attempt the call; on remote failure or
transport error retry up to a configured maximum attempt count with a fixed
inter-attempt delay; exhausting retries marks the node failed and no
further attempts occur. `op k` tells whether attempt number `k` succeeds;
the result is the number of attempts actually made and the terminal node
status. -/
def runWithRetry (maxAttempts : Nat) (op : Nat → Bool) : Nat × TaskStatus :=
  match maxAttempts with
  | 0 => (0, TaskStatus.failed)
  | n + 1 =>
    if op 0 then (1, TaskStatus.succeeded)
    else
      let rest := runWithRetry n (fun i => op (i + 1))
      (rest.1 + 1, rest.2)

/-- Start time, in minutes from the first attempt, of attempt number `i`
under the fixed inter-attempt delay: consecutive attempts are separated by
exactly `dagRetryDelayMinutes`. -/
def attemptTime (i : Nat) : Nat := i * dagRetryDelayMinutes

/-- Schedule interval the DAG declares (line 38):
`schedule_interval=timedelta(days=1)`, a fixed cadence of one day. -/
def scheduleIntervalDays : Nat := 1

/-- Modelled from the spec: the Scheduler of section 4.6 is
orchestration-framework code not present under `src/` — the module
contributes only its configuration (`scheduleIntervalDays`, the fixed
cadence). Following the words of the spec, the Scheduler state holds the
WorkflowRuns currently active, the triggers queued while a run was active,
and the identifier for the next run. -/
structure SchedState where
  running : List Nat
  queued : List Nat
  nextId : Nat
  deriving DecidableEq, Repr

/-- Events driving the Scheduler: `tick` is the fixed-interval trigger,
`complete` is the active WorkflowRun reaching a terminal state. -/
inductive SchedEvent where
  | tick
  | complete
  deriving DecidableEq, Repr

/-- Modelled from the spec: one Scheduler transition. A trigger while no run
is active starts a new WorkflowRun; a trigger while one is active is queued,
never started concurrently; on completion the finished run is dropped and a
queued trigger, if any, is promoted. -/
def schedStep (s : SchedState) (e : SchedEvent) : SchedState :=
  match e with
  | SchedEvent.tick =>
    match s.running with
    | [] => ⟨[s.nextId], s.queued, s.nextId + 1⟩
    | r :: rs => ⟨r :: rs, s.queued ++ [s.nextId], s.nextId + 1⟩
  | SchedEvent.complete =>
    match s.running, s.queued with
    | [], _ => s
    | _ :: _, [] => ⟨[], [], s.nextId⟩
    | _ :: _, q :: qs => ⟨[q], qs, s.nextId⟩

/-- Scheduler state after a sequence of events, from the idle initial
state. -/
def schedRun (evs : List SchedEvent) : SchedState :=
  evs.foldl schedStep ⟨[], [], 0⟩

/-- The `ALL_SUCCESS` trigger rule that the module sets on `t2`, `t4_1`,
`t4_2` and `t5` (and that `t7_1`, `t7_2` carry by default): a task runs
exactly when its upstream task succeeded. -/
def triggerAllSuccess (up : TaskStatus) : Bool :=
  decide (up = TaskStatus.succeeded)

/-- A concrete authentication-failure reply: HTTP 401 with no token. -/
def resp401 : Response := ⟨401, "", 0, "Unauthorized"⟩

/-- A concrete remote-failure reply: HTTP 500. -/
def resp500 : Response := ⟨500, "", 0, "Internal Server Error"⟩

/-- Branch selection of the run in which `Check_accuracy` picks `nope`
(`validate` is then never reached, so its entry is irrelevant). -/
def selNope : String → String :=
  fun t => if t = "Check_accuracy" then "nope" else "email_success"

/-- Branch selection of the run in which `Check_accuracy` picks `backup`
and `validate` picks `email_success`. -/
def selCommit : String → String :=
  fun t => if t = "Check_accuracy" then "backup" else "email_success"

/-- Branch selection of the run in which `Check_accuracy` picks `backup`
and `validate` picks `email_failure`. -/
def selRollback : String → String :=
  fun t => if t = "Check_accuracy" then "backup" else "email_failure"

end Workflow

namespace App

/-- Method names `pathlib.Path` actually exposes (the subset relevant to
`src/app/main.py`); `interdir` is not among them — the directory-listing
method is spelled `iterdir` — so `Path(...).interdir()` raises
`AttributeError` (main.py line 268). -/
def pathlibPathMethods : List String :=
  ["iterdir", "mkdir", "exists", "glob", "is_file", "is_dir", "resolve",
   "joinpath", "open", "absolute"]

/-- Python method lookup on a `pathlib.Path` object: an unknown name raises
`AttributeError`. -/
def pathGetMethod (name : String) : Except Workflow.PyExc String :=
  if name ∈ pathlibPathMethods then Except.ok name
  else Except.error Workflow.PyExc.attributeError

/-- Embeds the `/backup` endpoint handler (main.py lines 242–258): archives
the current model by copying it into a fresh directory named
`archive -<timestamp>` under `./src/models/archives/`; returns the archive
listing after the copy. `now` is the `%Y%m%d%H%M%S` timestamp of line
250. -/
def backup_endpoint (archives : List String) (now : String) : List String :=
  archives ++ ["archive -" ++ now]

/-- Embeds the `/reverse_backup` endpoint handler (main.py lines 261–274).
Line 268 evaluates `list(Path("./src/models/archives/").interdir())[0]`;
`pathlib.Path` has no method `interdir`, so the attribute lookup raises
`AttributeError` and the handler fails before selecting any archive.
`entries` is the listing of the archives directory in directory-iteration
order; on success the result would be the name of the entry copied over the
current model in `./src/models/`. -/
def reverse_backup (entries : List String) : Except Workflow.PyExc String :=
  match pathGetMethod "interdir" with
  | Except.error e => Except.error e
  | Except.ok _ =>
    match entries with
    | [] => Except.error Workflow.PyExc.indexError
    | e :: _ => Except.ok e

/-- Lines 267–274 of main.py with the evident `iterdir` intended for
`interdir`: `list(...)[0]` selects the FIRST entry of the archives
directory listing — the source comment on line 268 reads `Take the first
available file in archive` — and copies it into `./src/models/`; an empty
listing raises `IndexError`. -/
def reverse_backup_intended (entries : List String) : Except Workflow.PyExc String :=
  match entries with
  | [] => Except.error Workflow.PyExc.indexError
  | e :: _ => Except.ok e

/-- Name of the archive directory the `/backup` handler creates for the
given numeric `%Y%m%d%H%M%S`-style timestamp. -/
def archiveName (stamp : Nat) : String := "archive -" ++ toString stamp

/-- Greatest of a list of archive timestamps: archive names embed a
fixed-width timestamp, so the greatest timestamp names the most recently
archived backup. -/
def newestStamp (stamps : List Nat) : Nat := stamps.foldl max 0

end App



/-!
Theorems. Each claim of the specification is settled below against the
embedding above.
-/

namespace Workflow

/-- Helper: a task whose remote operation fails on every attempt is
attempted exactly `m` times by the retry loop and ends `failed`. -/
theorem runWithRetry_allFail (m : Nat) (op : Nat → Bool)
    (h : ∀ k, op k = false) : runWithRetry m op = (m, TaskStatus.failed) := by
  induction m generalizing op with
  | zero => rfl
  | succ n ih =>
    have h0 : op 0 = false := h 0
    simp [runWithRetry, h0, ih (fun i => op (i + 1)) (fun i => h (i + 1))]

/-- Helper: one Scheduler transition preserves the bound of at most one
active WorkflowRun. -/
theorem schedStep_running_le (s : SchedState) (e : SchedEvent)
    (h : s.running.length ≤ 1) : (schedStep s e).running.length ≤ 1 := by
  cases e with
  | tick =>
    cases hr : s.running with
    | nil => simp [schedStep, hr]
    | cons r rs =>
      rw [hr] at h
      simp only [schedStep, hr]
      exact h
  | complete =>
    cases hr : s.running with
    | nil => simp [schedStep, hr]
    | cons r rs =>
      cases hq : s.queued with
      | nil => simp [schedStep, hr, hq]
      | cons q qs => simp [schedStep, hr, hq]

/-- Helper: folding Scheduler transitions from any state with at most one
active run keeps at most one active run. -/
theorem schedFold_running_le (evs : List SchedEvent) (s : SchedState)
    (h : s.running.length ≤ 1) :
    (evs.foldl schedStep s).running.length ≤ 1 := by
  induction evs generalizing s with
  | nil => exact h
  | cons e evs ih => exact ih (schedStep s e) (schedStep_running_le s e h)

/-- C1: the claim says the post-retrain gate selects `commit` when the
re-fetched accuracy passes and invokes restore exactly once when it fails.
The code instead raises `AttributeError` at line 249
(`resp_accuracy.values` on a `requests.Response`, which has no `values`
attribute) on every invocation, before any comparison or branch return, so
neither outcome is ever selected and the reverse-backup route is never
POSTed; moreover even the unreachable fail branch (lines 258 to 269) POSTs
the accuracy route again instead of the reverse-backup route and reads
`status_code` off the URL string. -/
theorem validate_never_selects_and_never_restores :
    ∀ (post : String → Response) (th : ℚ),
      (validate post th).2 = Except.error PyExc.attributeError ∧
      reverse_backup_url ∉ (validate post th).1.posts ∧
      (validate_fail_branch post).2 = Except.error PyExc.attributeError ∧
      reverse_backup_url ∉ (validate_fail_branch post).1.posts := by
  intro post th
  refine ⟨rfl, ?_, rfl, ?_⟩
  · show reverse_backup_url ∉ [accuracy_url]
    decide
  · show reverse_backup_url ∉ [accuracy_url]
    decide

/-- C2: the claim says the pre-retrain gate compares the freshly retrieved
accuracy to the threshold and returns `noop` on pass and `backup` on fail.
The code instead raises `TypeError` at line 165 (`float(resp_accuracy)` on
the `requests.Response` object itself) on every invocation, before the
comparison of line 170 (itself `resp_accuracy >= accuracy_threshold`, a
`TypeError` between a response object and a float) and before either label
(`nope` in the source, not `noop`) can be returned; the XCom push also
never happens. -/
theorem Check_accuracy_raises_typeError :
    ∀ (post : String → Response) (th : ℚ),
      (Check_accuracy post th).2 = Except.error PyExc.typeError ∧
      (Check_accuracy post th).1.pushes = [] :=
  fun _ _ => ⟨rfl, rfl⟩

/-- C3 counterexample: in the run whose pre-retrain gate selects `nope`,
zero notification tasks lie on the executed path — the task `nope` has no
downstream edge, so the claim of exactly one notification per run (never
zero) fails on the declared wiring. -/
theorem nope_path_zero_notifications :
    emailCount selNope = 0 ∧ succs "nope" = [] ∧
    executed selNope = ["get_jwt_token", "recharge_data", "Check_accuracy", "nope"] := by
  refine ⟨by decide, by decide, by decide⟩

/-- C3 amended: a run whose pre-retrain gate selects `backup` has exactly
one notification task on its executed path (the one the post-retrain gate
selects), while a run whose pre-retrain gate selects `nope` has zero —
notifications fire at most once per run, not exactly once. -/
theorem notification_count_by_branch :
    emailCount selCommit = 1 ∧ emailCount selRollback = 1 ∧
    emailCount selNope = 0 := by
  refine ⟨by decide, by decide, by decide⟩

/-- C4 counterexample: with every token request answered 401, the
`get_jwt_token` callable returns `None` normally (no exception), so the
task instance succeeds and its `ALL_SUCCESS` dependent `recharge_data` is
not blocked — the run does not abort as an AuthFailure and downstream nodes
do execute, contradicting the claim. -/
theorem token_failure_task_succeeds :
    get_jwt_token (fun _ => resp401) =
      (⟨[token_url], [], 0, 1⟩, Except.ok PyVal.pyNone) ∧
    taskStatus (get_jwt_token (fun _ => resp401)).2 = TaskStatus.succeeded ∧
    triggerAllSuccess (taskStatus (get_jwt_token (fun _ => resp401)).2) = true :=
  ⟨rfl, rfl, rfl⟩

/-- C4 amended: when token issuance fails (any non-200 reply), the
`get_jwt_token` callable logs one error, pushes nothing and returns `None`
without raising; the task instance therefore succeeds, no run-level
AuthFailure occurs, and downstream tasks are not prevented from running. -/
theorem get_jwt_token_failure_returns_none :
    ∀ (post : String → Response), (post token_url).status_code ≠ 200 →
      get_jwt_token post = (⟨[token_url], [], 0, 1⟩, Except.ok PyVal.pyNone) ∧
      taskStatus (get_jwt_token post).2 = TaskStatus.succeeded := by
  intro post h
  unfold get_jwt_token
  rw [if_neg h]
  exact ⟨rfl, rfl⟩

/-- C4 amended, witness at the concrete all-401 oracle. -/
theorem get_jwt_token_failure_returns_none_witness :
    get_jwt_token (fun _ => resp401) =
      (⟨[token_url], [], 0, 1⟩, Except.ok PyVal.pyNone) ∧
    taskStatus (get_jwt_token (fun _ => resp401)).2 = TaskStatus.succeeded :=
  get_jwt_token_failure_returns_none (fun _ => resp401) (by decide)

/-- C5: a remote operation that fails on every attempt is attempted exactly
`m` times (the configured maximum attempt count) by the retry loop, after
which the node is `failed` and no further attempts occur; consecutive
attempts are separated by the fixed `retry_delay` (five minutes in the DAG
configuration). The retry loop is modelled from the spec, the DAG module
contributing the configuration `retries = 3` and `retry_delay = 5
minutes`. -/
theorem retry_exhaustion :
    ∀ (m : Nat) (op : Nat → Bool), 0 < m → (∀ k, op k = false) →
      runWithRetry m op = (m, TaskStatus.failed) ∧
      (∀ i, attemptTime (i + 1) - attemptTime i = dagRetryDelayMinutes) := by
  intro m op _ h
  refine ⟨runWithRetry_allFail m op h, ?_⟩
  intro i
  simp [attemptTime, Nat.succ_mul]

/-- C5 witness at the configured budget (`retries = 3`, hence four total
attempts) and the always-failing operation. -/
theorem retry_exhaustion_witness :
    runWithRetry (dagRetries + 1) (fun _ => false) =
      (dagRetries + 1, TaskStatus.failed) ∧
    (∀ i, attemptTime (i + 1) - attemptTime i = dagRetryDelayMinutes) :=
  retry_exhaustion (dagRetries + 1) (fun _ => false) (by decide) (fun _ => rfl)

/-- C6 counterexample: with both the raw-import and the dataset request
answered 500, the `recharge_data` callable logs two errors and returns
`None` normally, so the task instance succeeds — the node does not end
`failed` and its dependents are not skipped, contradicting the claim. -/
theorem recharge_data_failure_node_succeeds :
    recharge_data (fun _ => resp500) =
      (⟨[raw_url, dataset_url], [], 0, 2⟩, Except.ok PyVal.pyNone) ∧
    taskStatus (recharge_data (fun _ => resp500)).2 = TaskStatus.succeeded :=
  ⟨rfl, rfl⟩

/-- C6 amended: when both reload requests return unexpected status codes,
`recharge_data` records the failures only in its error log (two
`logging.error` calls) and returns normally; the node succeeds and its
dependents run. -/
theorem recharge_data_swallows_errors :
    ∀ (post : String → Response),
      (post raw_url).status_code ≠ 200 → (post dataset_url).status_code ≠ 200 →
      (recharge_data post).2 = Except.ok PyVal.pyNone ∧
      taskStatus (recharge_data post).2 = TaskStatus.succeeded ∧
      (recharge_data post).1.errorLogs = 2 := by
  intro post h1 h2
  refine ⟨rfl, rfl, ?_⟩
  show (if (post raw_url).status_code = 200 then 0 else 1)
      + (if (post dataset_url).status_code = 200 then 0 else 1) = 2
  rw [if_neg h1, if_neg h2]

/-- C6 amended, witness at the concrete all-500 oracle. -/
theorem recharge_data_swallows_errors_witness :
    (recharge_data (fun _ => resp500)).2 = Except.ok PyVal.pyNone ∧
    taskStatus (recharge_data (fun _ => resp500)).2 = TaskStatus.succeeded ∧
    (recharge_data (fun _ => resp500)).1.errorLogs = 2 :=
  recharge_data_swallows_errors (fun _ => resp500) (by decide) (by decide)

/-- C7 counterexample: the source contains XCom write statements for the
same key `current_accuracy` in two distinct task nodes, `Check_accuracy`
(line 165) and `retrain` (line 221) — and in `validate` (line 249) as well —
so no key is owned by exactly one producing node and the claimed key set
(`token`, `pre_accuracy`, `post_accuracy`) is not the one in the code. -/
theorem same_key_two_writers :
    ("Check_accuracy", "current_accuracy") ∈ xcomPushStmts ∧
    ("retrain", "current_accuracy") ∈ xcomPushStmts ∧
    "Check_accuracy" ≠ "retrain" := by
  refine ⟨by decide, by decide, by decide⟩

/-- C7 amended: the XCom keys in the code are `token`, written by the
single node `get_jwt_token`, and `current_accuracy`, for which three
distinct nodes (`Check_accuracy`, `retrain`, `validate`) contain a write
statement; the keys `pre_accuracy` and `post_accuracy` do not occur. At
runtime each of the three `current_accuracy` writes is preceded by a raised
exception, so that key is in fact never written at all. -/
theorem xcom_key_writers :
    writersOf "token" = ["get_jwt_token"] ∧
    writersOf "current_accuracy" = ["Check_accuracy", "retrain", "validate"] ∧
    writersOf "pre_accuracy" = [] ∧
    writersOf "post_accuracy" = [] ∧
    (∀ (post : String → Response) (th : ℚ),
      (Check_accuracy post th).1.pushes = []) ∧
    (∀ (post : String → Response), (retrain post).1.pushes = []) ∧
    (∀ (post : String → Response) (th : ℚ),
      (validate post th).1.pushes = []) :=
  ⟨by decide, by decide, by decide, by decide,
    fun _ _ => rfl, fun _ => rfl, fun _ _ => rfl⟩

/-- C9: the claim says graph construction succeeds at startup with the
dependency statements referencing only names bound earlier. Line 401
references `t_1`, `t_2`, `t_3`, none of which the module binds (the
operators are bound as `t1`, `t2`, `t3`), so evaluating the wiring raises
`NameError`, the module import fails and no DAG is built — a slip the rest
of the module (which defines and documents exactly the intended graph)
contradicts. -/
theorem module_wiring_nameError :
    moduleWiring = Except.error PyExc.nameError ∧
    "t_1" ∉ moduleBoundNames ∧ "t_2" ∉ moduleBoundNames ∧
    "t_3" ∉ moduleBoundNames ∧ "t1" ∈ moduleBoundNames ∧
    "t2" ∈ moduleBoundNames ∧ "t3" ∈ moduleBoundNames :=
  ⟨rfl, by decide, by decide, by decide, by decide, by decide, by decide⟩

/-- C10: the Scheduler (modelled from the spec, the DAG module contributing
the fixed cadence `schedule_interval = timedelta(days=1)`) triggers runs on
a fixed interval and keeps at most one WorkflowRun active after any
sequence of trigger and completion events: a trigger arriving while a run
is active is queued, never started concurrently. -/
theorem at_most_one_active_run :
    ∀ (evs : List SchedEvent),
      (schedRun evs).running.length ≤ 1 ∧ scheduleIntervalDays = 1 :=
  fun evs => ⟨schedFold_running_le evs ⟨[], [], 0⟩ (by decide), rfl⟩

end Workflow

namespace App

/-- C8 counterexample: on a concrete archives listing holding an older and
a newer timestamped backup (older first in directory-iteration order), the
`/reverse_backup` handler raises `AttributeError` (`interdir` is not a
`pathlib.Path` method) and so replaces nothing; even with the evident
`iterdir` intended, it would copy the FIRST listed entry — here the older
one — and not the most recently archived backup. -/
theorem reverse_backup_not_latest :
    reverse_backup ["archive -20240101", "archive -20240522"] =
      Except.error Workflow.PyExc.attributeError ∧
    reverse_backup_intended ["archive -20240101", "archive -20240522"] =
      Except.ok "archive -20240101" ∧
    newestStamp [20240101, 20240522] = 20240522 ∧
    "archive -20240101" ≠ "archive -20240522" := by
  refine ⟨rfl, rfl, by decide, by decide⟩

/-- C8 amended: the `/reverse_backup` handler as written always raises
`AttributeError`, because `interdir` is not a method of `pathlib.Path`
(`iterdir` is); with the intended spelling it selects the first entry of
the archives directory listing — per its own source comment, the first
available file — rather than the most recently archived backup. -/
theorem reverse_backup_behavior :
    (∀ entries, reverse_backup entries =
      Except.error Workflow.PyExc.attributeError) ∧
    (∀ e rest, reverse_backup_intended (e :: rest) = Except.ok e) ∧
    "interdir" ∉ pathlibPathMethods ∧ "iterdir" ∈ pathlibPathMethods :=
  ⟨fun _ => rfl, fun _ _ => rfl, by decide, by decide⟩

end App
